import Mathlib

/-!
Shallow embedding of the Falcon Guardian threat-analysis pipeline
(predictor module, privacy scoring in core.js, tracker matching in
detector.js, and the quantum scoring module), together with theorems
settling the specification claims about it.

Conventions: JavaScript numbers that only ever hold integers are
modelled as `Int`/`Nat`; exact decimal constants (confidences, scores)
as `ℚ`; the floating-point quantum formulas as `ℝ`. Timestamps are
`Int` milliseconds. JavaScript strings are Lean `String`s, with
`charCodeAt` modelled by `Char.toNat` (the inputs of interest are
ASCII, where the two agree).
-/

namespace FalconGuardian

/-- A recorded threat event, as stored in `Predictor.threatHistory`:
`type` and `severity` are the string fields the analysis reads, and
`timestamp` is the `Date.now()` stamp attached on recording. -/
structure ThreatEvent where
  ttype : String
  severity : String
  timestamp : Int
deriving DecidableEq

/-- A detected pattern object, as pushed by `detectPatterns`.
`threatType` is only populated for `rapid_repetition` (the JS object
omits the field otherwise; we store `""`). -/
structure Pattern where
  ptype : String
  threatType : String
  count : Nat
  severity : String
deriving DecidableEq

/-- A prediction object, as pushed by `generatePredictions`. -/
structure Prediction where
  ptype : String
  message : String
  confidence : ℚ
  timeframe : String
  severity : String
deriving DecidableEq

/-- The return value of `predictNextThreat`. -/
structure NextPrediction where
  predictedType : String
  confidence : ℚ
  timeframe : String
deriving DecidableEq

/-- The return value of `analyzeThreat` (minus the echoed threat):
the new store contents plus the computed structures. -/
structure AnalysisResult where
  threat : ThreatEvent
  patterns : List Pattern
  predictions : List Prediction
deriving DecidableEq

/-- `detectPatterns` from the predictor module: three independent
threshold rules over the trailing 60-second window of the history. -/
def detectPatterns (history : List ThreatEvent) (current : ThreatEvent)
    (now : Int) : List Pattern :=
  let recentThreats := history.filter (fun t => now - t.timestamp < 60000)
  let sameTypeThreats := recentThreats.filter (fun t => t.ttype = current.ttype)
  let p1 : List Pattern :=
    if sameTypeThreats.length > 3 then
      [⟨"rapid_repetition", current.ttype, sameTypeThreats.length, "medium"⟩]
    else []
  let uniqueThreatTypes := (recentThreats.map (fun t => t.ttype)).dedup
  let p2 : List Pattern :=
    if uniqueThreatTypes.length > 5 then
      [⟨"multiple_threat_types", "", uniqueThreatTypes.length, "high"⟩]
    else []
  let highSeverityThreats :=
    recentThreats.filter (fun t => t.severity = "high" ∨ t.severity = "critical")
  let p3 : List Pattern :=
    if highSeverityThreats.length > 2 then
      [⟨"high_severity_cluster", "", highSeverityThreats.length, "critical"⟩]
    else []
  p1 ++ p2 ++ p3

/-- The switch body of `generatePredictions`: the prediction pushed for
one pattern, or none for an unrecognized pattern type. -/
def predictionFor (p : Pattern) : Option Prediction :=
  if p.ptype = "rapid_repetition" then
    some ⟨"escalation_prediction",
          "Expected escalation of " ++ p.threatType ++ " attacks",
          0.8, "5-10 minutes", p.severity⟩
  else if p.ptype = "multiple_threat_types" then
    some ⟨"coordinated_attack",
          "Detected coordinated privacy attack pattern",
          0.9, "immediate", "high"⟩
  else if p.ptype = "high_severity_cluster" then
    some ⟨"critical_threat",
          "Critical privacy threat detected - immediate action required",
          0.95, "immediate", "critical"⟩
  else none

/-- `generatePredictions`: one prediction per recognized pattern. -/
def generatePredictions (patterns : List Pattern) : List Prediction :=
  patterns.filterMap predictionFor

/-- The total prediction template of the specification table: on the
three pattern types actually emitted by `detectPatterns` it agrees
with `predictionFor`. -/
def predictionTemplate (p : Pattern) : Prediction :=
  if p.ptype = "rapid_repetition" then
    ⟨"escalation_prediction",
     "Expected escalation of " ++ p.threatType ++ " attacks",
     0.8, "5-10 minutes", p.severity⟩
  else if p.ptype = "multiple_threat_types" then
    ⟨"coordinated_attack",
     "Detected coordinated privacy attack pattern",
     0.9, "immediate", "high"⟩
  else
    ⟨"critical_threat",
     "Critical privacy threat detected - immediate action required",
     0.95, "immediate", "critical"⟩

/-- The timestamp stamping done on recording: `{ ...threat, timestamp: Date.now() }`. -/
def stampThreat (t : ThreatEvent) (now : Int) : ThreatEvent :=
  { t with timestamp := now }

/-- The record step of `analyzeThreat`: push the stamped threat, then
keep only the last 100 entries (`slice(-100)`). -/
def recordThreat (history : List ThreatEvent) (t : ThreatEvent)
    (now : Int) : List ThreatEvent :=
  let h1 := history ++ [stampThreat t now]
  if h1.length > 100 then h1.drop (h1.length - 100) else h1

/-- `analyzeThreat`: record the threat into the history, then compute
patterns and predictions over the updated history; returns the new
store contents together with the computed structures. -/
def analyzeThreat (history : List ThreatEvent) (t : ThreatEvent)
    (now : Int) : List ThreatEvent × AnalysisResult :=
  let h1 := history ++ [stampThreat t now]
  let h2 := if h1.length > 100 then h1.drop (h1.length - 100) else h1
  let patterns := detectPatterns h2 t now
  let predictions := generatePredictions patterns
  (h2, ⟨t, patterns, predictions⟩)

/-- One step of the frequency tally: a JavaScript object keyed by
strings preserves insertion order, so the tally is an association list
with increment-in-place. -/
def tallyAdd (l : List (String × Nat)) (t : String) : List (String × Nat) :=
  match l with
  | [] => [(t, 1)]
  | (s, n) :: rest =>
    if s = t then (s, n + 1) :: rest else (s, n) :: tallyAdd rest t

/-- The frequency tally of `predictNextThreat`, in insertion order. -/
def tally (ts : List String) : List (String × Nat) :=
  ts.foldl tallyAdd []

/-- Stable descending insertion by count: an element is placed after
every element with a strictly greater count and before the rest, so
equal counts keep their original relative order. -/
def insertByCountDesc (a : String × Nat) : List (String × Nat) → List (String × Nat)
  | [] => [a]
  | b :: l => if b.2 > a.2 then b :: insertByCountDesc a l else a :: b :: l

/-- A stable descending sort by count, modelling the ECMAScript
(stable) `Array.prototype.sort` with comparator `(a, b) => b - a`
used on `Object.entries(frequency)`. -/
def sortByCountDesc : List (String × Nat) → List (String × Nat)
  | [] => []
  | x :: xs => insertByCountDesc x (sortByCountDesc xs)

/-- `Object.entries(frequency).sort(...)[0]`: the head of the stably
descending-sorted tally. -/
def mostFrequent (l : List (String × Nat)) : Option (String × Nat) :=
  (sortByCountDesc l).head?

/-- The specification's characterization of the winner: the first
entry, in tally insertion order, attaining the strictly highest count
(first-seen wins on ties). -/
def firstMax : List (String × Nat) → Option (String × Nat)
  | [] => none
  | a :: l =>
    match firstMax l with
    | none => some a
    | some b => if b.2 > a.2 then some b else some a

/-- `predictNextThreat`: frequency-based forecast over the last at
most 10 recorded events; fails closed below 3 total events. -/
def predictNextThreat (history : List ThreatEvent) : Option NextPrediction :=
  if history.length < 3 then none
  else
    let recentThreats := history.drop (history.length - 10)
    let threatTypes := recentThreats.map (fun t => t.ttype)
    let frequency := tally threatTypes
    match mostFrequent frequency with
    | some mf =>
      if mf.2 > 2 then
        some ⟨mf.1, min 0.8 ((mf.2 : ℚ) / 10), "within 30 seconds"⟩
      else none
    | none => none

/-- The severity weight switch of `calculateRiskScore`; unrecognized
severities fall through the switch and contribute 0. -/
def severityWeight (s : String) : Int :=
  if s = "critical" then 10
  else if s = "high" then 5
  else if s = "medium" then 2
  else if s = "low" then 1
  else 0

/-- `calculateRiskScore`: sum severity weights over the trailing
300-second window, then `Math.min(100, riskScore)`. -/
def calculateRiskScore (history : List ThreatEvent) (now : Int) : Int :=
  let recentThreats := history.filter (fun t => now - t.timestamp < 300000)
  let riskScore := recentThreats.foldl (fun acc t => acc + severityWeight t.severity) 0
  min 100 riskScore

/-- JavaScript `ToInt32`: reduce an exact integer into the signed
32-bit range, as the `<<` operator does to its operand and result. -/
def toInt32 (n : Int) : Int :=
  (n + 2147483648) % 4294967296 - 2147483648

/-- One character step of `_djb2Hash` in core.js:
`hash = ((hash << 5) + hash) + char`. The shift coerces through
signed 32-bit (`toInt32 (h * 32)`), while the two additions are exact
(JavaScript doubles hold these values exactly). -/
def djb2Step (h : Int) (c : Nat) : Int :=
  toInt32 (h * 32) + h + c

/-- `_djb2Hash(str)` from core.js, over the UTF-16 code units of the
serialized fingerprint (ASCII inputs: `Char.toNat` agrees). -/
def djb2Hash (s : String) : Int :=
  s.data.foldl (fun h c => djb2Step h c.toNat) 5381

/-- `calculateUniqueness`: `(Math.abs(hash) % 10000) / 10000` applied
to the canonical serialization of the fingerprint. -/
def calculateUniqueness (s : String) : ℚ :=
  (((djb2Hash s).natAbs % 10000 : ℕ) : ℚ) / 10000

/-- Modelled from the spec words for claim C7: the pure-integer
djb2 recurrence `h = h * 33 + code(c)` with no 32-bit coercion,
to be compared with the source's `djb2Hash`. -/
def specDjb2Hash (s : String) : Int :=
  s.data.foldl (fun h c => h * 33 + c.toNat) 5381

/-- Modelled from the spec words for claim C7: normalization
`abs(hash) mod 10000 / 10000` of the pure-integer djb2 hash. -/
def specUniqueness (s : String) : ℚ :=
  (((specDjb2Hash s).natAbs % 10000 : ℕ) : ℚ) / 10000

/-- The permission list iterated by `calculatePermissionScore`. -/
def permissionList : List String :=
  ["camera", "microphone", "geolocation", "notifications"]

/-- `calculatePermissionScore`: −5 for each currently granted
permission, expressed over a grant snapshot. -/
def calculatePermissionScore (granted : String → Bool) : Int :=
  permissionList.foldl (fun acc p => if granted p then acc - 5 else acc) 0

/-- `calculateFingerprintScore`: −20 when the uniqueness estimate of
the serialized fingerprint exceeds 0.8, else 0. -/
def calculateFingerprintScore (fp : String) : Int :=
  if calculateUniqueness fp > 0.8 then -20 else 0

/-- `updatePrivacyScore`: start at 100, add the four factors, clamp to
[0, 100] via `Math.max(0, Math.min(100, score))`. -/
def updatePrivacyScore (trackerCount : Nat) (secure : Bool)
    (granted : String → Bool) (fp : String) : Int :=
  let factors : List Int :=
    [(trackerCount : Int) * (-5),
     if secure then 10 else -20,
     calculatePermissionScore granted,
     calculateFingerprintScore fp]
  let score := factors.foldl (fun acc f => acc + f) 100
  max 0 (min 100 score)

/-- The static tracker domain list of `isTrackerDomain` in detector.js. -/
def trackerDomains : List String :=
  ["google-analytics.com", "googletagmanager.com", "facebook.com",
   "doubleclick.net", "scorecardresearch.com", "quantserve.com",
   "adsystem.com", "amazon-adsystem.com", "hotjar.com", "mixpanel.com",
   "amplitude.com", "segment.com", "heap.io", "fullstory.com",
   "clarity.ms", "mouseflow.com", "crazyegg.com", "optimizely.com",
   "vwo.com", "abtasty.com", "criteo.com", "outbrain.com", "taboola.com",
   "pubmatic.com", "rubiconproject.com", "openx.net", "adroll.com",
   "yandex.ru", "baidu.com", "live.com"]

/-- The platform builtin `String.prototype.endsWith`, modelled over
the sequence of code units: `s.endsWith(post)` is true exactly when
`post` is a suffix of `s`. -/
def jsEndsWith (s post : String) : Bool :=
  post.data.isSuffixOf s.data

/-- `isTrackerDomain`: parse the URL to a hostname and suffix-match it
against the static list. `new URL(url)` throwing on a malformed URL is
modelled by the parser returning `none`; the `catch` branch returns
`false`. The platform URL parser is not repository code, so it is a
parameter. -/
def isTrackerDomain (parseHostname : String → Option String)
    (url : String) : Bool :=
  match parseHostname url with
  | some hostname => trackerDomains.any (fun domain => jsEndsWith hostname domain)
  | none => false

/-- A qubit of the quantum engine; only the field layout matters to
the claims (entanglement pairing is positional). -/
structure Qubit where
  state : ℕ
  phase : ℝ
  amplitude : ℝ

/-- The pairing loop of `quantumEntanglement`: consecutive qubits
`(i, i+1)` for even `i`, dropping an unpaired tail element. -/
def entangledPairs {α : Type} : List α → List (α × α)
  | a :: b :: rest => (a, b) :: entangledPairs rest
  | _ => []

/-- `calculateTunnelingProbability` with the fixed barrier
(height 1.0, width 0.5): probability 1 when the energy ratio reaches
1, otherwise `exp(-2 * (width * sqrt(2 * (height - energy))))` clamped
to [0, 1] by `Math.min(1, Math.max(0, ...))`. -/
noncomputable def calculateTunnelingProbability (energy : ℝ) : ℝ :=
  if energy / 1 ≥ 1 then 1
  else min 1 (max 0 (Real.exp (-2 * (0.5 * Real.sqrt (2 * (1 - energy))))))

/-- The result record of `quantumTunneling`; `tunneled` is the event
`Math.random() < tunnelingProbability` at the sampled value. -/
structure TunnelingResult where
  energy : ℝ
  momentum : ℝ
  tunnelingProbability : ℝ
  tunneled : Prop

/-- `quantumTunneling`, parametrized by the three random samples the
code draws (particle energy, particle momentum, and the uniform
sample compared against the probability). -/
noncomputable def quantumTunneling (energy momentum sample : ℝ) : TunnelingResult :=
  { energy := energy
    momentum := momentum
    tunnelingProbability := calculateTunnelingProbability energy
    tunneled := sample < calculateTunnelingProbability energy }

/-- The normalized probability list of `quantumSuperposition`,
parametrized by the 8 amplitudes drawn from the quantum random
generator: each probability is `amplitude²` divided by the total. -/
noncomputable def superpositionProbs (amps : Fin 8 → ℝ) : List ℝ :=
  let raw := List.ofFn fun i => amps i * amps i
  raw.map (fun p => p / raw.sum)

/-- The unscaled composite score of `quantumPrivacyScore`:
`(superpositionFactor + entanglementFactor + tunnelingFactor) / 3`,
with the superposition factor the mean of the normalized
probabilities, the entanglement factor `pairs / 32`, and the
tunneling factor the tunneling probability. -/
noncomputable def quantumScoreVal (qubits : List Qubit) (amps : Fin 8 → ℝ)
    (energy : ℝ) : ℝ :=
  let superpositionFactor :=
    (superpositionProbs amps).sum / ((superpositionProbs amps).length : ℝ)
  let entanglementFactor := ((entangledPairs qubits).length : ℝ) / 32
  let tunnelingFactor := calculateTunnelingProbability energy
  (superpositionFactor + entanglementFactor + tunnelingFactor) / 3

/-- `interpretQuantumScore`: the five-way threshold interpretation,
applied by `quantumPrivacyScore` to the unscaled composite score. -/
noncomputable def interpretQuantumScore (score : ℝ) : String :=
  if score ≥ 0.8 then "Quantum Secure"
  else if score ≥ 0.6 then "Quantum Protected"
  else if score ≥ 0.4 then "Quantum Aware"
  else if score ≥ 0.2 then "Quantum Vulnerable"
  else "Quantum Exposed"

/-! Helper lemmas. -/

/-- The head of the stable descending sort is the first-seen entry of
maximal count. -/
theorem head?_sortByCountDesc (l : List (String × Nat)) :
    (sortByCountDesc l).head? = firstMax l := by
  induction l with
  | nil => rfl
  | cons x xs ih =>
    cases h : sortByCountDesc xs with
    | nil =>
      have hfm : firstMax xs = none := by rw [← ih, h]; rfl
      simp [sortByCountDesc, firstMax, h, hfm, insertByCountDesc]
    | cons b s2 =>
      have hfm : firstMax xs = some b := by rw [← ih, h]; rfl
      by_cases hb : b.2 > x.2
      · simp [sortByCountDesc, firstMax, h, hfm, insertByCountDesc, hb]
      · simp [sortByCountDesc, firstMax, h, hfm, insertByCountDesc, hb]

/-- A `filterMap` whose function is total on the list is a `map`. -/
theorem filterMap_eq_map_on {α β : Type} (f : α → Option β) (g : α → β) :
    ∀ l : List α, (∀ a ∈ l, f a = some (g a)) → l.filterMap f = l.map g := by
  intro l
  induction l with
  | nil => intro _; rfl
  | cons x xs ih =>
    intro hall
    have hx : f x = some (g x) := hall x (List.mem_cons_self x xs)
    simp [List.filterMap_cons, hx, ih fun a ha => hall a (List.mem_cons_of_mem x ha)]

/-- Folding additions of a mapped weight equals the initial value plus
the sum of the mapped list. -/
theorem foldl_add_eq_sum {α : Type} (f : α → Int) :
    ∀ (l : List α) (init : Int),
      l.foldl (fun acc t => acc + f t) init = init + (l.map f).sum := by
  intro l
  induction l with
  | nil => intro init; simp
  | cons x xs ih => intro init; simp [List.foldl_cons, ih, add_assoc]

/-- Every severity weight is non-negative. -/
theorem severityWeight_nonneg (s : String) : 0 ≤ severityWeight s := by
  unfold severityWeight
  split_ifs <;> norm_num

/-- The record step never leaves more than 100 stored events. -/
theorem recordThreat_length_le (history : List ThreatEvent) (t : ThreatEvent) (now : Int) :
    (recordThreat history t now).length ≤ 100 := by
  dsimp only [recordThreat]
  split_ifs with hl
  · rw [List.length_drop]
    omega
  · omega

/-! Claim theorems. -/

/-- C2: `predictNextThreat` returns no prediction when the total
history holds fewer than 3 events; otherwise it tallies category
frequencies over the last at-most-10 events and, via the head of the
stable descending sort, picks the first-seen most frequent category;
it predicts exactly when that count exceeds 2, with confidence
`min 0.8 (count / 10)` and timeframe "within 30 seconds". For the
history [canvas, canvas, canvas, geolocation] it predicts canvas with
confidence 0.3. -/
theorem predictNextThreat_spec (h : List ThreatEvent) :
    (predictNextThreat h =
       if h.length < 3 then none
       else
         match firstMax (tally ((h.drop (h.length - 10)).map (fun t => t.ttype))) with
         | some mf =>
           if mf.2 > 2 then
             some ⟨mf.1, min 0.8 ((mf.2 : ℚ) / 10), "within 30 seconds"⟩
           else none
         | none => none) ∧
    predictNextThreat
        [⟨"canvas", "medium", 0⟩, ⟨"canvas", "medium", 1⟩,
         ⟨"canvas", "medium", 2⟩, ⟨"geolocation", "high", 3⟩] =
      some ⟨"canvas", 0.3, "within 30 seconds"⟩ := by
  constructor
  · simp only [predictNextThreat, mostFrequent, head?_sortByCountDesc]
  · simp only [predictNextThreat, mostFrequent, sortByCountDesc, insertByCountDesc,
      tally, tallyAdd, List.foldl, List.map, List.drop, List.length, List.head?]
    norm_num [min_def]

/-- C5: after any record operation the stored history never exceeds
100 entries, and recording into a full history of 100 entries evicts
exactly the oldest entry, preserving the order of the rest. -/
theorem analyzeThreat_cap (history : List ThreatEvent) (t : ThreatEvent) (now : Int) :
    (analyzeThreat history t now).1.length ≤ 100 ∧
    (history.length = 100 →
      (analyzeThreat history t now).1 = history.drop 1 ++ [stampThreat t now]) := by
  constructor
  · have h1 : (analyzeThreat history t now).1 = recordThreat history t now := rfl
    rw [h1]
    exact recordThreat_length_le history t now
  · intro h100
    have hl : (history ++ [stampThreat t now]).length > 100 := by simp [h100]
    have h1 : (analyzeThreat history t now).1 =
        (history ++ [stampThreat t now]).drop
          ((history ++ [stampThreat t now]).length - 100) := by
      simp only [analyzeThreat]
      rw [if_pos hl]
    rw [h1, List.drop_append_eq_append_drop]
    have h2 : (history ++ [stampThreat t now]).length - 100 = 1 := by simp [h100]
    rw [h2]
    simp [h100]

/-- Witness for C5 at a concrete full history of 100 entries. -/
theorem analyzeThreat_cap_witness :
    (List.replicate 100 (⟨"tracker_network", "low", 0⟩ : ThreatEvent)).length = 100 ∧
    (analyzeThreat (List.replicate 100 ⟨"tracker_network", "low", 0⟩)
        ⟨"canvas_fingerprint", "medium", 0⟩ 50).1 =
      (List.replicate 100 (⟨"tracker_network", "low", 0⟩ : ThreatEvent)).drop 1 ++
        [stampThreat ⟨"canvas_fingerprint", "medium", 0⟩ 50] :=
  ⟨by simp,
   (analyzeThreat_cap (List.replicate 100 ⟨"tracker_network", "low", 0⟩)
      ⟨"canvas_fingerprint", "medium", 0⟩ 50).2 (by simp)⟩

/-- C6: the pattern-analysis step of `analyzeThreat` has no effect on
the store beyond the record step itself: the returned store contents
equal exactly the result of the record step, and the returned
structures are exactly the patterns and predictions computed from
that store. -/
theorem analyzeThreat_frame (history : List ThreatEvent) (t : ThreatEvent) (now : Int) :
    (analyzeThreat history t now).1 = recordThreat history t now ∧
    (analyzeThreat history t now).2 =
      ⟨t, detectPatterns (recordThreat history t now) t now,
          generatePredictions (detectPatterns (recordThreat history t now) t now)⟩ := by
  constructor <;> simp [analyzeThreat, recordThreat]

/-- C1: over the trailing 60-second window, `detectPatterns` emits
exactly the patterns given by the three independent threshold rules
(rapid_repetition iff strictly more than 3 same-category events,
multiple_threat_types iff strictly more than 5 distinct categories,
high_severity_cluster iff strictly more than 2 high-or-critical
events), and `generatePredictions` produces exactly one prediction
per detected pattern, given by the fixed template
`predictionTemplate` (confidence 0.8 / "5-10 minutes",
0.9 / "immediate", 0.95 / "immediate" respectively). -/
theorem detectPatterns_generatePredictions_spec
    (history : List ThreatEvent) (current : ThreatEvent) (now : Int) :
    let w := history.filter (fun t => now - t.timestamp < 60000)
    let sameCount := w.countP (fun t => t.ttype = current.ttype)
    let distinctCount := (w.map (fun t => t.ttype)).toFinset.card
    let hiCount := w.countP (fun t => t.severity = "high" ∨ t.severity = "critical")
    detectPatterns history current now =
      (if sameCount > 3 then
        [⟨"rapid_repetition", current.ttype, sameCount, "medium"⟩] else []) ++
      (if distinctCount > 5 then
        [⟨"multiple_threat_types", "", distinctCount, "high"⟩] else []) ++
      (if hiCount > 2 then
        [⟨"high_severity_cluster", "", hiCount, "critical"⟩] else []) ∧
    ((⟨"rapid_repetition", current.ttype, sameCount, "medium"⟩ : Pattern) ∈
        detectPatterns history current now ↔ sameCount > 3) ∧
    ((⟨"multiple_threat_types", "", distinctCount, "high"⟩ : Pattern) ∈
        detectPatterns history current now ↔ distinctCount > 5) ∧
    ((⟨"high_severity_cluster", "", hiCount, "critical"⟩ : Pattern) ∈
        detectPatterns history current now ↔ hiCount > 2) ∧
    generatePredictions (detectPatterns history current now) =
      (detectPatterns history current now).map predictionTemplate := by
  intro w sameCount distinctCount hiCount
  have hEq : detectPatterns history current now =
      (if sameCount > 3 then
        [⟨"rapid_repetition", current.ttype, sameCount, "medium"⟩] else []) ++
      (if distinctCount > 5 then
        [⟨"multiple_threat_types", "", distinctCount, "high"⟩] else []) ++
      (if hiCount > 2 then
        [⟨"high_severity_cluster", "", hiCount, "critical"⟩] else []) := by
    simp only [detectPatterns, w, sameCount, distinctCount, hiCount,
      List.countP_eq_length_filter, List.card_toFinset]
  have hTemplate : ∀ p ∈ detectPatterns history current now,
      predictionFor p = some (predictionTemplate p) := by
    intro p hp
    rw [hEq] at hp
    simp only [List.mem_append] at hp
    rcases hp with (hp | hp) | hp <;>
      [skip; skip; skip] <;>
      · split_ifs at hp <;> simp only [List.mem_singleton, List.not_mem_nil] at hp
        · subst hp
          simp [predictionFor, predictionTemplate]
  refine ⟨hEq, ?_, ?_, ?_, ?_⟩
  · rw [hEq]
    by_cases h1 : sameCount > 3 <;> by_cases h2 : distinctCount > 5 <;>
      by_cases h3 : hiCount > 2 <;> simp [h1, h2, h3]
  · rw [hEq]
    by_cases h1 : sameCount > 3 <;> by_cases h2 : distinctCount > 5 <;>
      by_cases h3 : hiCount > 2 <;> simp [h1, h2, h3]
  · rw [hEq]
    by_cases h1 : sameCount > 3 <;> by_cases h2 : distinctCount > 5 <;>
      by_cases h3 : hiCount > 2 <;> simp [h1, h2, h3]
  · exact filterMap_eq_map_on predictionFor predictionTemplate _ hTemplate

/-- C4: `calculateRiskScore` equals the sum of the severity weights
over the trailing 300-second window, clamped to [0, 100]; it always
lies in [0, 100]; and it is a pure function of the window contents
(equal windows give equal scores, whatever the rest of the history or
the clock reads). -/
theorem calculateRiskScore_spec (history : List ThreatEvent) (now : Int) :
    (calculateRiskScore history now =
      max 0 (min 100
        (((history.filter (fun t => now - t.timestamp < 300000)).map
            (fun t => severityWeight t.severity)).sum))) ∧
    0 ≤ calculateRiskScore history now ∧
    calculateRiskScore history now ≤ 100 ∧
    (∀ (history2 : List ThreatEvent) (now2 : Int),
      history.filter (fun t => now - t.timestamp < 300000) =
        history2.filter (fun t => now2 - t.timestamp < 300000) →
      calculateRiskScore history now = calculateRiskScore history2 now2) := by
  have key : ∀ (h : List ThreatEvent) (n : Int),
      calculateRiskScore h n =
        min 100 (((h.filter (fun t => n - t.timestamp < 300000)).map
          (fun t => severityWeight t.severity)).sum) := by
    intro h n
    dsimp only [calculateRiskScore]
    rw [foldl_add_eq_sum]
    rw [zero_add]
  have sum_nonneg : ∀ (h : List ThreatEvent) (n : Int),
      0 ≤ ((h.filter (fun t => n - t.timestamp < 300000)).map
        (fun t => severityWeight t.severity)).sum := by
    intro h n
    apply List.sum_nonneg
    intro x hx
    simp only [List.mem_map] at hx
    obtain ⟨t, _, rfl⟩ := hx
    exact severityWeight_nonneg t.severity
  refine ⟨?_, ?_, ?_, ?_⟩
  · rw [key]
    rw [max_eq_right]
    exact le_min (by norm_num) (sum_nonneg history now)
  · rw [key]
    exact le_min (by norm_num) (sum_nonneg history now)
  · rw [key]
    exact min_le_left _ _
  · intro history2 now2 hw
    rw [key, key, hw]

/-- Witness for C4's window-congruence hypothesis: two histories and
clocks with the same 5-minute window produce the same risk score. -/
theorem calculateRiskScore_spec_witness :
    (([⟨"canvas_fingerprint", "critical", 0⟩] : List ThreatEvent).filter
        (fun t => 1000 - t.timestamp < 300000) =
      ([⟨"canvas_fingerprint", "critical", 0⟩,
        ⟨"tracker_network", "low", -400000⟩] : List ThreatEvent).filter
        (fun t => 1000 - t.timestamp < 300000)) ∧
    calculateRiskScore [⟨"canvas_fingerprint", "critical", 0⟩] 1000 =
      calculateRiskScore
        [⟨"canvas_fingerprint", "critical", 0⟩, ⟨"tracker_network", "low", -400000⟩]
        1000 :=
  ⟨by decide,
   (calculateRiskScore_spec [⟨"canvas_fingerprint", "critical", 0⟩] 1000).2.2.2
     [⟨"canvas_fingerprint", "critical", 0⟩, ⟨"tracker_network", "low", -400000⟩]
     1000 (by decide)⟩

/-- The permission factor is −5 per granted permission among the four
queried ones. -/
theorem calculatePermissionScore_eq (granted : String → Bool) :
    calculatePermissionScore granted =
      -5 * ((permissionList.countP granted : Nat) : Int) := by
  dsimp only [calculatePermissionScore, permissionList]
  cases hc : granted "camera" <;> cases hm : granted "microphone" <;>
    cases hg : granted "geolocation" <;> cases hn : granted "notifications" <;>
    simp [List.countP_cons, List.countP_nil, hc, hm, hg, hn]

/-- C3: the privacy score equals 100 plus trackerCount × −5, plus +10
if the transport is secure else −20, plus −5 per granted permission
among camera/microphone/geolocation/notifications, plus −20 if the
fingerprint uniqueness estimate exceeds 0.8 else 0, clamped to
[0, 100]; it always lies in [0, 100]; and in the extreme case
(50 trackers, insecure, all permissions granted, uniqueness > 0.8 as
holds for the serialization "aaaa") it clamps to exactly 0. -/
theorem updatePrivacyScore_spec (trackerCount : Nat) (secure : Bool)
    (granted : String → Bool) (fp : String) :
    (updatePrivacyScore trackerCount secure granted fp =
      max 0 (min 100
        (100 + (trackerCount : Int) * (-5) + (if secure then 10 else -20) +
          (-5) * ((permissionList.countP granted : Nat) : Int) +
          (if calculateUniqueness fp > 0.8 then -20 else 0)))) ∧
    0 ≤ updatePrivacyScore trackerCount secure granted fp ∧
    updatePrivacyScore trackerCount secure granted fp ≤ 100 ∧
    calculateUniqueness "aaaa" > 0.8 ∧
    updatePrivacyScore 50 false (fun _ => true) "aaaa" = 0 := by
  have hform : ∀ (tc : Nat) (sec : Bool) (g : String → Bool) (f : String),
      updatePrivacyScore tc sec g f =
        max 0 (min 100
          (100 + (tc : Int) * (-5) + (if sec then 10 else -20) +
            (-5) * ((permissionList.countP g : Nat) : Int) +
            (if calculateUniqueness f > 0.8 then -20 else 0))) := by
    intro tc sec g f
    dsimp only [updatePrivacyScore, calculateFingerprintScore, List.foldl]
    rw [calculatePermissionScore_eq]
  refine ⟨hform trackerCount secure granted fp, ?_, ?_, ?_, ?_⟩
  · dsimp only [updatePrivacyScore]
    exact le_max_left _ _
  · dsimp only [updatePrivacyScore]
    exact max_le (by norm_num) (min_le_left _ _)
  · have h : (djb2Hash "aaaa").natAbs % 10000 = 8425 := by rfl
    rw [calculateUniqueness, h]
    norm_num
  · have h : calculateUniqueness "aaaa" > 0.8 := by
      have h2 : (djb2Hash "aaaa").natAbs % 10000 = 8425 := by rfl
      rw [calculateUniqueness, h2]
      norm_num
    rw [hform, if_pos h]
    decide

/-- C7 counterexample: for the serialization "aaaa" the value computed
by the code (whose `(hash << 5) + hash` step wraps the shift through
signed 32 bits) differs from the claimed pure-integer djb2 rolling
hash `h = h * 33 + code` normalization: the code yields 0.8425, the
claimed formula 0.5721. -/
theorem calculateUniqueness_not_pure_djb2 :
    ¬ (calculateUniqueness "aaaa" = specUniqueness "aaaa") := by
  have h1 : (djb2Hash "aaaa").natAbs % 10000 = 8425 := by rfl
  have h2 : (specDjb2Hash "aaaa").natAbs % 10000 = 5721 := by rfl
  rw [calculateUniqueness, specUniqueness, h1, h2]
  norm_num

/-- C7 (amended): `calculateUniqueness` is deterministic — equal
serializations give equal values — and the value is
`abs(hash) mod 10000 / 10000` of the code's 32-bit-shift djb2 variant
(`h = toInt32(h * 32) + h + code`, which agrees with `h * 33 + code`
only until 32-bit overflow), hence always lies in [0, 1). -/
theorem calculateUniqueness_deterministic (s t : String) :
    (s = t → calculateUniqueness s = calculateUniqueness t) ∧
    calculateUniqueness s =
      (((djb2Hash s).natAbs % 10000 : ℕ) : ℚ) / 10000 ∧
    0 ≤ calculateUniqueness s ∧
    calculateUniqueness s < 1 := by
  refine ⟨fun h => by rw [h], rfl, ?_, ?_⟩
  · rw [calculateUniqueness]
    positivity
  · rw [calculateUniqueness]
    rw [div_lt_one (by norm_num)]
    have h : (djb2Hash s).natAbs % 10000 < 10000 := Nat.mod_lt _ (by norm_num)
    exact_mod_cast h

/-- Witness for C7's determinism hypothesis at a concrete
serialization. -/
theorem calculateUniqueness_deterministic_witness :
    calculateUniqueness "abc" = calculateUniqueness "abc" ∧
    0 ≤ calculateUniqueness "abc" ∧
    calculateUniqueness "abc" < 1 :=
  ⟨(calculateUniqueness_deterministic "abc" "abc").1 rfl,
   (calculateUniqueness_deterministic "abc" "abc").2.2.1,
   (calculateUniqueness_deterministic "abc" "abc").2.2.2⟩

/-- C9: `isTrackerDomain` returns true exactly when the URL parses to
a hostname that suffix-matches one of the 30 fixed tracker domains
(so subdomains match, as do unrelated domains merely sharing the
suffix string), and a parse failure is caught and treated as "not a
tracker". -/
theorem isTrackerDomain_spec (parseHostname : String → Option String) (url : String) :
    (isTrackerDomain parseHostname url = true ↔
      ∃ hostname, parseHostname url = some hostname ∧
        ∃ domain ∈ trackerDomains, jsEndsWith hostname domain = true) ∧
    (parseHostname url = none → isTrackerDomain parseHostname url = false) ∧
    isTrackerDomain (fun _ => some "sub.google-analytics.com")
      "https://sub.google-analytics.com/collect" = true ∧
    isTrackerDomain (fun _ => some "notgoogle-analytics.com")
      "https://notgoogle-analytics.com/" = true := by
  refine ⟨?_, ?_, ?_, ?_⟩
  · cases hp : parseHostname url with
    | none => simp [isTrackerDomain, hp]
    | some hostname =>
      simp [isTrackerDomain, hp, List.any_eq_true]
  · intro hp
    simp [isTrackerDomain, hp]
  · decide
  · decide

/-- Witness for C9's fail-open hypothesis: a parser that throws
(returns `none`) makes the check return false. -/
theorem isTrackerDomain_spec_witness :
    ((fun (_ : String) => (none : Option String)) "http//bad url" = none) ∧
    isTrackerDomain (fun _ => none) "http//bad url" = false :=
  ⟨rfl, (isTrackerDomain_spec (fun _ => none) "http//bad url").2.1 rfl⟩

/-- The tunneling probability always lies in [0, 1]. -/
theorem tunnelingProbability_mem_unit (energy : ℝ) :
    0 ≤ calculateTunnelingProbability energy ∧
    calculateTunnelingProbability energy ≤ 1 := by
  unfold calculateTunnelingProbability
  split_ifs
  · norm_num
  · exact ⟨le_min (by norm_num) (le_max_left 0 _), min_le_left _ _⟩

/-- The pairing loop produces `length / 2` pairs. -/
theorem length_entangledPairs {α : Type} :
    ∀ l : List α, (entangledPairs l).length = l.length / 2
  | [] => by simp [entangledPairs]
  | [_] => by simp [entangledPairs]
  | _ :: _ :: rest => by
    simp only [entangledPairs, List.length_cons, length_entangledPairs rest]
    omega

/-- Dividing every list element by a constant divides the sum. -/
theorem sum_map_div (l : List ℝ) (t : ℝ) :
    (l.map (fun x => x / t)).sum = l.sum / t := by
  induction l with
  | nil => simp
  | cons x xs ih => simp [ih, add_div]

/-- C8: with the fixed barrier (height 1.0, width 0.5), the tunneling
probability is exactly 1 when the particle energy reaches the barrier
height, and otherwise equals
`exp(-2 * width * sqrt(2 * (height - energy)))` clamped to [0, 1];
moreover when the energy reaches the height, any uniform sample in
[0, 1) is below the probability, so the `tunneled` flag is true. -/
theorem quantumTunneling_spec (energy momentum sample : ℝ) :
    (1 ≤ energy → calculateTunnelingProbability energy = 1) ∧
    (energy < 1 →
      calculateTunnelingProbability energy =
        min 1 (max 0 (Real.exp (-(2 * 0.5 * Real.sqrt (2 * (1 - energy))))))) ∧
    (0 ≤ sample → sample < 1 → 1 ≤ energy →
      (quantumTunneling energy momentum sample).tunneled) := by
  have hone : ∀ e : ℝ, 1 ≤ e → calculateTunnelingProbability e = 1 := by
    intro e he
    unfold calculateTunnelingProbability
    rw [if_pos (by rwa [div_one])]
  refine ⟨hone energy, ?_, ?_⟩
  · intro he
    unfold calculateTunnelingProbability
    rw [if_neg (by rw [div_one]; exact not_le.mpr he)]
    ring_nf
  · intro h0 h1 he
    show sample < calculateTunnelingProbability energy
    rw [hone energy he]
    exact h1

/-- Witness for C8 at concrete energies on both sides of the barrier
and a concrete uniform sample. -/
theorem quantumTunneling_spec_witness :
    calculateTunnelingProbability 2 = 1 ∧
    calculateTunnelingProbability 0.5 =
      min 1 (max 0 (Real.exp (-(2 * 0.5 * Real.sqrt (2 * (1 - 0.5)))))) ∧
    (quantumTunneling 2 0 0.5).tunneled :=
  ⟨(quantumTunneling_spec 2 0 0.5).1 (by norm_num),
   (quantumTunneling_spec 0.5 0 0.5).2.1 (by norm_num),
   (quantumTunneling_spec 2 0 0.5).2.2 (by norm_num) (by norm_num) (by norm_num)⟩

/-- C10: for an initialized engine with 64 qubits whose superposition
amplitudes are not all zero, the entanglement factor is exactly 1 and
the superposition factor exactly 1/8, so the unscaled composite
quantum score lies in [0.375, 17/24] and its interpretation can only
be "Quantum Vulnerable", "Quantum Aware" or "Quantum Protected" —
"Quantum Secure" and "Quantum Exposed" are unreachable. -/
theorem quantumPrivacyScore_spec (qubits : List Qubit) (amps : Fin 8 → ℝ)
    (energy : ℝ) (hq : qubits.length = 64) (ha : ∃ i, amps i ≠ 0) :
    ((entangledPairs qubits).length : ℝ) / 32 = 1 ∧
    (superpositionProbs amps).sum / ((superpositionProbs amps).length : ℝ) = 1 / 8 ∧
    (0.375 : ℝ) ≤ quantumScoreVal qubits amps energy ∧
    quantumScoreVal qubits amps energy ≤ 17 / 24 ∧
    interpretQuantumScore (quantumScoreVal qubits amps energy) ∈
      ["Quantum Vulnerable", "Quantum Aware", "Quantum Protected"] := by
  have hpairs : (entangledPairs qubits).length = 32 := by
    rw [length_entangledPairs, hq]
  have h1 : ((entangledPairs qubits).length : ℝ) / 32 = 1 := by
    rw [hpairs]
    norm_num
  have hT : 0 < (List.ofFn fun i => amps i * amps i).sum := by
    rw [List.sum_ofFn]
    obtain ⟨i, hi⟩ := ha
    exact Finset.sum_pos' (fun j _ => mul_self_nonneg (amps j))
      ⟨i, Finset.mem_univ i, mul_self_pos.mpr hi⟩
  have hsum : (superpositionProbs amps).sum = 1 := by
    dsimp only [superpositionProbs]
    rw [sum_map_div]
    exact div_self (ne_of_gt hT)
  have hlen : ((superpositionProbs amps).length : ℝ) = 8 := by
    simp [superpositionProbs]
  have h2 : (superpositionProbs amps).sum / ((superpositionProbs amps).length : ℝ) =
      1 / 8 := by
    rw [hsum, hlen]
  obtain ⟨ht0, ht1⟩ := tunnelingProbability_mem_unit energy
  have hval : quantumScoreVal qubits amps energy =
      (1 / 8 + 1 + calculateTunnelingProbability energy) / 3 := by
    dsimp only [quantumScoreVal]
    rw [h2, h1]
  have hlow : (0.375 : ℝ) ≤ quantumScoreVal qubits amps energy := by
    rw [hval]
    linarith
  have hhigh : quantumScoreVal qubits amps energy ≤ 17 / 24 := by
    rw [hval]
    linarith
  refine ⟨h1, h2, hlow, hhigh, ?_⟩
  unfold interpretQuantumScore
  split_ifs with hA hB hC hD
  · exact absurd hA (by norm_num at hlow hhigh ⊢; linarith)
  · simp
  · simp
  · simp
  · exact absurd hD (by norm_num at hlow hhigh ⊢; linarith)

/-- Witness for C10 at a concrete 64-qubit state, all-ones amplitudes
and an above-barrier energy. -/
theorem quantumPrivacyScore_spec_witness :
    (List.replicate 64 (⟨0, 0, 0⟩ : Qubit)).length = 64 ∧
    ((fun _ : Fin 8 => (1 : ℝ)) 0 ≠ 0) ∧
    interpretQuantumScore
        (quantumScoreVal (List.replicate 64 ⟨0, 0, 0⟩) (fun _ => 1) 2) ∈
      ["Quantum Vulnerable", "Quantum Aware", "Quantum Protected"] :=
  ⟨by simp, by norm_num,
   (quantumPrivacyScore_spec (List.replicate 64 ⟨0, 0, 0⟩) (fun _ => 1) 2
     (by simp) ⟨0, by norm_num⟩).2.2.2.2⟩

end FalconGuardian
